import Mathlib

/-!
Shallow embedding of the MMAudio MCP server (`src/server/index.js`)
request/response contract layer: configuration resolution, tool input
validation (Zod schemas), request dispatch, upstream-response
interpretation, and the `validate_api_key` handler.

JavaScript values flowing through the relevant code paths are modelled
as follows: JSON documents as an inductive `Json` type, JS numbers as
rationals (every numeric literal and bound in the source is exactly
representable), absent (`undefined`) values as `Option`, and thrown
exceptions as explicit outcome constructors.  Each handler returns,
alongside its outcome, the list of outbound HTTP requests it issued, so
that "makes no network call" is a statement about that list.
-/

attribute [local semireducible] Rat.ofScientific

/-- A JSON value, as produced by `JSON.parse` / consumed by
`JSON.stringify` in the server. -/
inductive Json where
  | null : Json
  | bool (b : Bool) : Json
  | num (q : ℚ) : Json
  | str (s : String) : Json
  | arr (elems : List Json) : Json
  | obj (fields : List (String × Json)) : Json

/-- Field lookup on a JSON object (`o.name` in JS); `none` both when the
value is not an object and when the field is absent. -/
def Json.getField : Json → String → Option Json
  | .obj fields, name => fields.lookup name
  | _, _ => none

/-- JavaScript truthiness of a JSON value (`null`, `false`, `0` and `""`
are falsy; objects and arrays are always truthy). -/
def Json.truthy : Json → Bool
  | .null => false
  | .bool b => b
  | .num q => decide (q ≠ 0)
  | .str s => decide (s ≠ "")
  | .arr _ => true
  | .obj _ => true

mutual

/-- JavaScript string coercion of a JSON value, as applied by
`new Error(value)` to a non-string message.  Non-integral numbers use a
numerator/denominator rendering, abstracting JS float formatting. -/
def Json.toDisplayString : Json → String
  | .null => "null"
  | .bool b => cond b "true" "false"
  | .num q => if q.den = 1 then toString q.num else toString q.num ++ "/" ++ toString q.den
  | .str s => s
  | .arr elems => Json.listDisplayString elems
  | .obj _ => "[object Object]"

/-- JS `Array.prototype.toString`: elements joined with commas. -/
def Json.listDisplayString : List Json → String
  | [] => ""
  | [x] => x.toDisplayString
  | x :: xs => x.toDisplayString ++ "," ++ Json.listDisplayString xs

end

/-- JS `a || b` on possibly-absent strings: the left operand when it is
truthy (present and non-empty), otherwise the right operand as-is. -/
def jsOrStr (a b : Option String) : Option String :=
  match a with
  | some s => if s = "" then b else some s
  | none => b

/-- A possibly-absent string is truthy exactly when present and
non-empty (`if (!x)` in JS takes the error branch otherwise). -/
def truthyOptStr : Option String → Option String
  | some s => if s = "" then none else some s
  | none => none

/-- `s.startsWith p`, computed on the character lists so that concrete
instances reduce. -/
def strStartsWith (s p : String) : Bool :=
  decide (s.data.take p.data.length = p.data)

/-- Abstraction of WHATWG URL parsing as used by Zod's `.url()` check:
the URLs exercised by this adapter are http(s) URLs with a host part. -/
def isValidUrl (s : String) : Bool :=
  (strStartsWith s "http://" && decide (7 < s.data.length)) ||
  (strStartsWith s "https://" && decide (8 < s.data.length))

/-- Accumulate the value of a decimal digit run. -/
def digitsToNat : List Char → Nat → Nat
  | [], acc => acc
  | c :: cs, acc => digitsToNat cs (acc * 10 + (c.toNat - 48))

/-- JS `parseInt(s)` restricted to decimal notation: optional sign
followed by a digit run; `none` models `NaN` (no leading digits).
Trailing non-digit characters are ignored, as in JS. -/
def parseIntJs (s : String) : Option Int :=
  let (sign, rest) :=
    if strStartsWith s "-" then ((-1 : Int), s.data.drop 1)
    else if strStartsWith s "+" then ((1 : Int), s.data.drop 1)
    else ((1 : Int), s.data)
  let digits := rest.takeWhile Char.isDigit
  if digits.isEmpty then none
  else some (sign * digitsToNat digits 0)

/-- The resolved configuration (`ConfigSchema` output). -/
structure Config where
  apiKey : String
  baseUrl : String
  timeout : Int
  deriving DecidableEq

/-- The process environment variables read by `loadConfig`
(`MMAUDIO_API_KEY`/`apiKey`, `MMAUDIO_BASE_URL`/`baseUrl`,
`MMAUDIO_TIMEOUT`/`timeout`). -/
structure Env where
  MMAUDIO_API_KEY : Option String := none
  envApiKey : Option String := none
  MMAUDIO_BASE_URL : Option String := none
  envBaseUrl : Option String := none
  MMAUDIO_TIMEOUT : Option String := none
  envTimeout : Option String := none
  deriving DecidableEq

/-- One Zod issue: path and message. -/
abbrev ZodIssue := String × String

instance {ε α : Type _} [DecidableEq ε] [DecidableEq α] : DecidableEq (Except ε α) := fun x y =>
  match x, y with
  | .ok a, .ok b => if h : a = b then .isTrue (by rw [h]) else .isFalse (by simp [h])
  | .error a, .error b => if h : a = b then .isTrue (by rw [h]) else .isFalse (by simp [h])
  | .ok _, .error _ => .isFalse (by simp)
  | .error _, .ok _ => .isFalse (by simp)

/-- The issue list collected by `ConfigSchema`: `apiKey` a non-empty
string, `baseUrl` a valid URL, `timeout` a number in `[5000, 300000]`
(`none` models `NaN` from `parseInt`).  Out-of-range timeouts are
rejected, as Zod `.min`/`.max` do; no clamping occurs. -/
def configIssues (apiKey : Option String) (baseUrl : String)
    (timeout : Option Int) : List ZodIssue :=
  (match apiKey with
   | none => [(("apiKey" : String), ("Required" : String))]
   | some k => if k = "" then [("apiKey", "API key is required")] else []) ++
  (if isValidUrl baseUrl then [] else [("baseUrl", "Invalid url")]) ++
  (match timeout with
   | none => [(("timeout" : String), ("Expected number, received nan" : String))]
   | some t =>
     (if t < 5000 then [("timeout", "Number must be greater than or equal to 5000")] else []) ++
     (if t > 300000 then [("timeout", "Number must be less than or equal to 300000")] else []))

/-- `ConfigSchema.parse` proper: succeed only on an empty issue list. -/
def ConfigSchema.parse (apiKey : Option String) (baseUrl : String)
    (timeout : Option Int) : Except (List ZodIssue) Config :=
  let issues := configIssues apiKey baseUrl timeout
  if issues.isEmpty then
    .ok { apiKey := apiKey.getD "", baseUrl := baseUrl, timeout := timeout.getD 0 }
  else .error issues

/-- `loadConfig`: assemble the raw configuration from the environment
(JS `||` chains with defaults) and validate it with `ConfigSchema`.  An
`.error` models the thrown `McpError` whose message is
`Configuration error: ...`. -/
def loadConfig (env : Env) : Except (List ZodIssue) Config :=
  let apiKey := jsOrStr env.MMAUDIO_API_KEY env.envApiKey
  let baseUrl := (jsOrStr env.MMAUDIO_BASE_URL
    (jsOrStr env.envBaseUrl (some "https://mmaudio.net"))).getD "https://mmaudio.net"
  let timeout := parseIntJs ((jsOrStr env.MMAUDIO_TIMEOUT
    (jsOrStr env.envTimeout (some "60000"))).getD "60000")
  ConfigSchema.parse apiKey baseUrl timeout

/-- Raw caller arguments for `video_to_audio`, before validation.  Known
fields carry their JS type when present; `extras` are the caller-supplied
keys outside the declared contract (Zod object schemas strip them).  For
`seed`, `some none` models an explicit JS `null` (the field is
`.optional().nullable()`). -/
structure VideoToAudioRawInput where
  video_url : Option String := none
  prompt : Option String := none
  negative_prompt : Option String := none
  seed : Option (Option Int) := none
  num_steps : Option Int := none
  duration : Option ℚ := none
  cfg_strength : Option ℚ := none
  extras : List (String × Json) := []

/-- Validated, defaulted `video_to_audio` input (`VideoToAudioInputSchema`
output).  `seed` stays optional-and-nullable, with no default. -/
structure VideoToAudioInput where
  video_url : String
  prompt : String
  negative_prompt : String
  seed : Option (Option Int)
  num_steps : Int
  duration : ℚ
  cfg_strength : ℚ
  deriving DecidableEq

/-- Raw caller arguments for `text_to_audio`.  Here `seed` is
`.optional().default(0)`, so an absent seed defaults rather than staying
absent. -/
structure TextToAudioRawInput where
  prompt : Option String := none
  duration : Option ℚ := none
  num_steps : Option Int := none
  cfg_strength : Option ℚ := none
  negative_prompt : Option String := none
  seed : Option Int := none
  extras : List (String × Json) := []

/-- Validated, defaulted `text_to_audio` input (`TextToAudioInputSchema`
output). -/
structure TextToAudioInput where
  prompt : String
  duration : ℚ
  num_steps : Int
  cfg_strength : ℚ
  negative_prompt : String
  seed : Int
  deriving DecidableEq

/-- Zod issues for one optional bounded numeric field: when present the
value must lie in `[lo, hi]`; when absent the default applies and no
issue is raised. -/
def boundIssues (path : String) (lo hi : ℚ) : Option ℚ → List ZodIssue
  | none => []
  | some q =>
    (if q < lo then [(path, "Number must be greater than or equal to " ++ toString lo.num)] else []) ++
    (if q > hi then [(path, "Number must be less than or equal to " ++ toString hi.num)] else [])

/-- Same for integer fields (`z.number().int().min(lo).max(hi)`). -/
def intBoundIssues (path : String) (lo hi : Int) : Option Int → List ZodIssue
  | none => []
  | some n =>
    (if n < lo then [(path, "Number must be greater than or equal to " ++ toString lo)] else []) ++
    (if n > hi then [(path, "Number must be less than or equal to " ++ toString hi)] else [])

/-- Zod issues for a required URL-string field. -/
def urlFieldIssues (path : String) (message : String) : Option String → List ZodIssue
  | none => [(path, "Required")]
  | some u => if isValidUrl u then [] else [(path, message)]

/-- Zod issues for the required `prompt` field (`z.string().min(1)`). -/
def promptFieldIssues : Option String → List ZodIssue
  | none => [(("prompt" : String), ("Required" : String))]
  | some p => if p = "" then [("prompt", "Prompt is required")] else []

/-- The issue list collected by `VideoToAudioInputSchema` (Zod reports
every offending field, not just the first). -/
def videoInputIssues (raw : VideoToAudioRawInput) : List ZodIssue :=
  urlFieldIssues "video_url" "Invalid video URL" raw.video_url ++
  promptFieldIssues raw.prompt ++
  intBoundIssues "num_steps" 1 50 raw.num_steps ++
  boundIssues "duration" 1 30 raw.duration ++
  boundIssues "cfg_strength" 1 10 raw.cfg_strength

/-- `VideoToAudioInputSchema.parse`: collect every issue; on success
apply the declared defaults and strip `extras`. -/
def VideoToAudioInputSchema.parse (raw : VideoToAudioRawInput) :
    Except (List ZodIssue) VideoToAudioInput :=
  let issues := videoInputIssues raw
  if issues.isEmpty then
    .ok { video_url := raw.video_url.getD ""
          prompt := raw.prompt.getD ""
          negative_prompt := raw.negative_prompt.getD ""
          seed := raw.seed
          num_steps := raw.num_steps.getD 25
          duration := raw.duration.getD 8
          cfg_strength := raw.cfg_strength.getD 4.5 }
  else .error issues

/-- The issue list collected by `TextToAudioInputSchema`. -/
def textInputIssues (raw : TextToAudioRawInput) : List ZodIssue :=
  promptFieldIssues raw.prompt ++
  boundIssues "duration" 1 30 raw.duration ++
  intBoundIssues "num_steps" 1 50 raw.num_steps ++
  boundIssues "cfg_strength" 1 10 raw.cfg_strength

/-- `TextToAudioInputSchema.parse`: as the video variant, with `seed`
defaulting to `0`. -/
def TextToAudioInputSchema.parse (raw : TextToAudioRawInput) :
    Except (List ZodIssue) TextToAudioInput :=
  let issues := textInputIssues raw
  if issues.isEmpty then
    .ok { prompt := raw.prompt.getD ""
          duration := raw.duration.getD 8
          num_steps := raw.num_steps.getD 25
          cfg_strength := raw.cfg_strength.getD 4.5
          negative_prompt := raw.negative_prompt.getD ""
          seed := raw.seed.getD 0 }
  else .error issues

/-- `JSON.stringify(input)` for the validated video input: fields in
schema declaration order; an absent optional `seed` is omitted (JS
`undefined` keys are dropped), an explicit `null` seed is kept. -/
def VideoToAudioInput.bodyFields (i : VideoToAudioInput) : List (String × Json) :=
  [("video_url", .str i.video_url), ("prompt", .str i.prompt),
   ("negative_prompt", .str i.negative_prompt)] ++
  (match i.seed with
   | none => []
   | some none => [(("seed" : String), Json.null)]
   | some (some n) => [("seed", .num n)]) ++
  [("num_steps", .num i.num_steps), ("duration", .num i.duration),
   ("cfg_strength", .num i.cfg_strength)]

/-- `JSON.stringify(input)` for the validated text input: all six fields
are always present. -/
def TextToAudioInput.bodyFields (i : TextToAudioInput) : List (String × Json) :=
  [("prompt", .str i.prompt), ("duration", .num i.duration),
   ("num_steps", .num i.num_steps), ("cfg_strength", .num i.cfg_strength),
   ("negative_prompt", .str i.negative_prompt), ("seed", .num i.seed)]

/-- Parsed upstream audio/video descriptor (`AudioResponseSchema`
output). -/
structure AudioResult where
  url : String
  content_type : String
  file_name : String
  file_size : ℚ
  deriving DecidableEq

/-- One field check of `AudioResponseSchema`: the field must be present
and a string (plus the `.url()` check for `url`). -/
def strFieldIssues (j : Json) (path name : String) (checkUrl : Bool) :
    List ZodIssue × Option String :=
  match j.getField name with
  | some (.str s) =>
    if checkUrl && !isValidUrl s then ([(path ++ name, "Invalid url")], none)
    else ([], some s)
  | some _ => ([(path ++ name, "Expected string")], none)
  | none => ([(path ++ name, "Required")], none)

/-- `AudioResponseSchema.parse` at an issue-path prefix: an object with
`url` (a URL string), `content_type`, `file_name` (strings) and
`file_size` (a number); every missing or mistyped field is an issue and
nothing is defaulted. -/
def AudioResponseSchema.parse (path : String) (j : Json) :
    Except (List ZodIssue) AudioResult :=
  match j with
  | .obj _ =>
    let u := strFieldIssues j path "url" true
    let c := strFieldIssues j path "content_type" false
    let f := strFieldIssues j path "file_name" false
    let (si, sz) :=
      match j.getField "file_size" with
      | some (.num q) => (([] : List ZodIssue), some q)
      | some _ => ([(path ++ "file_size", "Expected number")], none)
      | none => ([(path ++ "file_size", "Required")], none)
    let issues := u.1 ++ c.1 ++ f.1 ++ si
    if issues.isEmpty then
      .ok { url := u.2.getD "", content_type := c.2.getD "",
            file_name := f.2.getD "", file_size := sz.getD 0 }
    else .error issues
  | _ => .error [(path, "Expected object")]

/-- `VideoToAudioResponseSchema.parse`: the 2xx body must be an object
whose `video` field satisfies `AudioResponseSchema`. -/
def VideoToAudioResponseSchema.parse (j : Json) : Except (List ZodIssue) AudioResult :=
  match j.getField "video" with
  | some v => AudioResponseSchema.parse "video." v
  | none =>
    match j with
    | .obj _ => .error [("video", "Required")]
    | _ => .error [("", "Expected object")]

/-- `TextToAudioResponseSchema.parse`: same with an `audio` field. -/
def TextToAudioResponseSchema.parse (j : Json) : Except (List ZodIssue) AudioResult :=
  match j.getField "audio" with
  | some v => AudioResponseSchema.parse "audio." v
  | none =>
    match j with
    | .obj _ => .error [("audio", "Required")]
    | _ => .error [("", "Expected object")]

/-- What `fetch` produced: an HTTP response (status, raw body text, and
the result of `JSON.parse` on that text, `none` when the body is not
JSON) or a transport-level rejection (DNS failure, refused connection,
timeout) with its message. -/
inductive FetchOutcome where
  | response (status : Nat) (bodyText : String) (jsonBody : Option Json)
  | transportError (msg : String)

/-- `response.ok`: status in `[200, 300)`. -/
def statusOk (status : Nat) : Bool :=
  decide (200 ≤ status) && decide (status < 300)

/-- The non-2xx error-message extraction shared by both generation
handlers: start from `HTTP <status>`; if the body parses as JSON replace
it with the body's `error` field when that is truthy; if the body is not
JSON replace it with the raw body text when that is non-empty. -/
def extractErrorMessage (status : Nat) (bodyText : String) (jsonBody : Option Json) : String :=
  let fallback := "HTTP " ++ toString status
  match jsonBody with
  | some j =>
    match j.getField "error" with
    | some e => if e.truthy then e.toDisplayString else fallback
    | none => fallback
  | none => if bodyText = "" then fallback else bodyText

/-- An outbound generation request: URL, bearer token and the
`JSON.stringify`-ed body. -/
structure GenRequest where
  url : String
  bearer : String
  bodyFields : List (String × Json)

/-- The MCP error codes used by the server. -/
inductive ErrorCode where
  | invalidRequest
  | invalidParams
  | methodNotFound
  | internalError
  deriving DecidableEq

/-- The success payload of a generation envelope: the four descriptor
fields plus the echoed request metadata. -/
structure GenSuccess where
  message : String
  audio_url : String
  content_type : String
  file_name : String
  file_size : ℚ
  duration : ℚ
  prompt : String
  deriving DecidableEq

/-- Outcome of a generation handler: a success envelope, a thrown
`McpError` (code and message), or a thrown plain `Error` (which the
dispatch wrapper surfaces as an internal error). -/
inductive HandlerOutcome where
  | success (e : GenSuccess)
  | mcpError (code : ErrorCode) (msg : String)
  | thrown (msg : String)
  deriving DecidableEq

/-- Message used when `response.json()` rejects on a 2xx body that is
not JSON (the native message text is abstracted). -/
def jsonParseFailureMessage : String := "Unexpected end of JSON input"

/-- `error.errors.map(e => path + ": " + message).join(", ")`. -/
def formatZodIssues (issues : List ZodIssue) : String :=
  String.intercalate ", " (issues.map (fun i => i.1 ++ ": " ++ i.2))

/-- The `McpError` thrown for a `z.ZodError` caught by the generation
handlers (both for caller-input and for upstream-response parse
failures). -/
def zodMcpError (issues : List ZodIssue) : HandlerOutcome :=
  .mcpError .invalidParams ("Invalid input parameters: " ++ formatZodIssues issues)

/-- Interpret the fetch outcome for a generation call, given the parser
for the expected 2xx body shape and the operation's fixed 403 message.
Mirrors the shared tail of `handleVideoToAudio`/`handleTextToAudio`. -/
def interpretGenResponse (parseBody : Json → Except (List ZodIssue) AudioResult)
    (creditsMsg : String) (successMsg : String) (input_duration : ℚ)
    (input_prompt : String) : FetchOutcome → HandlerOutcome
  | .transportError msg => .thrown msg
  | .response status bodyText jsonBody =>
    if statusOk status then
      match jsonBody with
      | none => .thrown jsonParseFailureMessage
      | some j =>
        match parseBody j with
        | .error issues => zodMcpError issues
        | .ok r =>
          .success { message := successMsg, audio_url := r.url,
                     content_type := r.content_type, file_name := r.file_name,
                     file_size := r.file_size, duration := input_duration,
                     prompt := input_prompt }
    else if status = 401 then
      .mcpError .invalidRequest "Invalid API key. Please check your MMAudio API key."
    else if status = 403 then
      .mcpError .invalidRequest creditsMsg
    else if status = 429 then
      .mcpError .invalidRequest "Rate limit exceeded. Please try again later."
    else
      .thrown (extractErrorMessage status bodyText jsonBody)

/-- `handleVideoToAudio` (configuration already resolved): validate,
then issue exactly one POST to `{baseUrl}/api/video-to-audio` and
interpret the response; on validation failure throw the zod `McpError`
with no request issued.  The second component lists the outbound
requests. -/
def handleVideoToAudio (cfg : Config) (raw : VideoToAudioRawInput)
    (fetch : FetchOutcome) : HandlerOutcome × List GenRequest :=
  match VideoToAudioInputSchema.parse raw with
  | .error issues => (zodMcpError issues, [])
  | .ok input =>
    (interpretGenResponse VideoToAudioResponseSchema.parse
      "Insufficient credits for video-to-audio generation."
      "Audio generated successfully from video" input.duration input.prompt fetch,
     [{ url := cfg.baseUrl ++ "/api/video-to-audio", bearer := cfg.apiKey,
        bodyFields := input.bodyFields }])

/-- `handleTextToAudio`, same shape against `/api/text-to-audio`. -/
def handleTextToAudio (cfg : Config) (raw : TextToAudioRawInput)
    (fetch : FetchOutcome) : HandlerOutcome × List GenRequest :=
  match TextToAudioInputSchema.parse raw with
  | .error issues => (zodMcpError issues, [])
  | .ok input =>
    (interpretGenResponse TextToAudioResponseSchema.parse
      "Insufficient credits for text-to-audio generation."
      "Audio generated successfully from text" input.duration input.prompt fetch,
     [{ url := cfg.baseUrl ++ "/api/text-to-audio", bearer := cfg.apiKey,
        bodyFields := input.bodyFields }])

/-- The JSON envelope returned by `handleValidateApiKey` (always wrapped
in a single text content item).  `credits` and `account_status` are only
present on the valid-key path; `error` only on the failure paths. -/
structure KeyEnvelope where
  success : Bool
  valid : Bool
  message : String
  error : Option String := none
  credits : Option Json := none
  account_status : Option String := none

/-- Outcome of `handleValidateApiKey`: a returned envelope, or a thrown
`McpError` (only the no-key case throws; everything inside the `try` is
caught and converted into an envelope). -/
inductive ValidateOutcome where
  | envelope (e : KeyEnvelope)
  | thrownMcp (code : ErrorCode) (msg : String)

/-- Is this outcome a returned envelope (as opposed to a thrown error)? -/
def ValidateOutcome.isEnvelope : ValidateOutcome → Bool
  | .envelope _ => true
  | .thrownMcp _ _ => false

/-- The `valid` flag of a returned envelope (`none` when thrown). -/
def ValidateOutcome.validFlag : ValidateOutcome → Option Bool
  | .envelope e => some e.valid
  | .thrownMcp _ _ => none

/-- An outbound GET to the credits endpoint. -/
structure CreditsRequest where
  url : String
  bearer : String
  deriving DecidableEq

/-- The `try`/`catch` body of `handleValidateApiKey` after the GET: a
401 response and every caught failure (transport error, non-2xx status,
non-JSON 2xx body) are returned as `valid := false` envelopes; a 2xx
JSON body yields the `valid := true` envelope with
`credits := data.credits || "Unknown"`. -/
def interpretCreditsResponse : FetchOutcome → ValidateOutcome
  | .transportError msg =>
    .envelope { success := false, valid := false,
                message := "Failed to validate API key", error := some msg }
  | .response status bodyText jsonBody =>
    if status = 401 then
      .envelope { success := false, valid := false, message := "Invalid API key",
                  error := some "Authentication failed" }
    else if !statusOk status then
      .envelope { success := false, valid := false,
                  message := "Failed to validate API key",
                  error := some ("HTTP " ++ toString status ++ ": " ++ bodyText) }
    else
      match jsonBody with
      | none =>
        .envelope { success := false, valid := false,
                    message := "Failed to validate API key",
                    error := some jsonParseFailureMessage }
      | some data =>
        let credits :=
          match data.getField "credits" with
          | some c => if c.truthy then c else .str "Unknown"
          | none => .str "Unknown"
        .envelope { success := true, valid := true, message := "API key is valid",
                    credits := some credits, account_status := some "Active" }

/-- `handleValidateApiKey`: `args.api_key || this.config?.apiKey`, throw
`No API key provided` when that is falsy; otherwise one GET to
`{config?.baseUrl || "https://mmaudio.net"}/api/credits` interpreted by
`interpretCreditsResponse`.  Note the handler never resolves
configuration (`ensureConfigured` is not called here). -/
def handleValidateApiKey (config : Option Config) (api_key : Option String)
    (fetch : FetchOutcome) : ValidateOutcome × List CreditsRequest :=
  match truthyOptStr (jsOrStr api_key (config.map Config.apiKey)) with
  | none => (.thrownMcp .invalidRequest "No API key provided", [])
  | some key =>
    (interpretCreditsResponse fetch,
     [{ url := (jsOrStr (config.map Config.baseUrl) (some "https://mmaudio.net")).getD
          "https://mmaudio.net" ++ "/api/credits",
        bearer := key }])

/-! Concrete fixtures used by witnesses and counterexamples. -/

/-- A resolved configuration. -/
def cfg0 : Config := { apiKey := "sk-test", baseUrl := "https://mmaudio.net", timeout := 60000 }

/-- A valid `video_to_audio` input. -/
def rawV0 : VideoToAudioRawInput :=
  { video_url := some "https://example.com/v.mp4", prompt := some "ocean waves" }

/-- A valid `text_to_audio` input. -/
def rawT0 : TextToAudioRawInput := { prompt := some "rain on leaves" }

/-- C5: the input `{prompt: "rain on leaves"}` passes `text_to_audio`
validation with the declared defaults, and the outbound request body
contains exactly the six contract fields
`prompt, duration=8, num_steps=25, cfg_strength=4.5, negative_prompt="",
seed=0`. -/
theorem c5_text_defaults_in_body :
    (TextToAudioInputSchema.parse rawT0 =
      .ok { prompt := "rain on leaves", duration := 8, num_steps := 25,
            cfg_strength := 4.5, negative_prompt := "", seed := 0 })
    ∧ ∀ (cfg : Config) (f : FetchOutcome),
        (handleTextToAudio cfg rawT0 f).2 =
          [{ url := cfg.baseUrl ++ "/api/text-to-audio", bearer := cfg.apiKey,
             bodyFields := [("prompt", .str "rain on leaves"), ("duration", .num 8),
               ("num_steps", .num 25), ("cfg_strength", .num 4.5),
               ("negative_prompt", .str ""), ("seed", .num 0)] }] := by
  refine ⟨by decide, fun cfg f => ?_⟩
  rfl


/-- Validation succeeds exactly when the collected issue list is
empty (video variant). -/
theorem videoParse_isOk_eq (raw : VideoToAudioRawInput) :
    (VideoToAudioInputSchema.parse raw).isOk = (videoInputIssues raw).isEmpty := by
  unfold VideoToAudioInputSchema.parse
  cases h : (videoInputIssues raw).isEmpty <;> simp [h, Except.isOk, Except.toBool]

/-- Validation succeeds exactly when the collected issue list is
empty (text variant). -/
theorem textParse_isOk_eq (raw : TextToAudioRawInput) :
    (TextToAudioInputSchema.parse raw).isOk = (textInputIssues raw).isEmpty := by
  unfold TextToAudioInputSchema.parse
  cases h : (textInputIssues raw).isEmpty <;> simp [h, Except.isOk, Except.toBool]

/-- C6: for both generation operations the duration bounds `[1, 30]` are
inclusive: every input carrying `duration = 0` or `duration = 31` fails
validation, and replacing the duration of any input that validates with
`1` or `30` still validates. -/
theorem c6_duration_bounds_inclusive
    (rawV : VideoToAudioRawInput) (rawT : TextToAudioRawInput) (d : ℚ) :
    (rawV.duration = some 0 ∨ rawV.duration = some 31 →
      (VideoToAudioInputSchema.parse rawV).isOk = false)
    ∧ (rawT.duration = some 0 ∨ rawT.duration = some 31 →
      (TextToAudioInputSchema.parse rawT).isOk = false)
    ∧ ((VideoToAudioInputSchema.parse rawV).isOk = true → d = 1 ∨ d = 30 →
      (VideoToAudioInputSchema.parse { rawV with duration := some d }).isOk = true)
    ∧ ((TextToAudioInputSchema.parse rawT).isOk = true → d = 1 ∨ d = 30 →
      (TextToAudioInputSchema.parse { rawT with duration := some d }).isOk = true) := by
  have hbad : ∀ q : ℚ, q = 0 ∨ q = 31 → boundIssues "duration" 1 30 (some q) ≠ [] := by
    rintro q (rfl | rfl) <;> decide
  have hgood : ∀ q : ℚ, q = 1 ∨ q = 30 → boundIssues "duration" 1 30 (some q) = [] := by
    rintro q (rfl | rfl) <;> decide
  refine ⟨fun h => ?_, fun h => ?_, fun hok hd => ?_, fun hok hd => ?_⟩
  · rw [videoParse_isOk_eq]
    cases hE : (videoInputIssues rawV).isEmpty
    · rfl
    · exfalso
      rw [List.isEmpty_iff] at hE
      simp only [videoInputIssues, List.append_eq_nil] at hE
      rcases h with h | h
      · rw [h] at hE; exact hbad 0 (Or.inl rfl) hE.1.2
      · rw [h] at hE; exact hbad 31 (Or.inr rfl) hE.1.2
  · rw [textParse_isOk_eq]
    cases hE : (textInputIssues rawT).isEmpty
    · rfl
    · exfalso
      rw [List.isEmpty_iff] at hE
      simp only [textInputIssues, List.append_eq_nil] at hE
      rcases h with h | h
      · rw [h] at hE; exact hbad 0 (Or.inl rfl) hE.1.1.2
      · rw [h] at hE; exact hbad 31 (Or.inr rfl) hE.1.1.2
  · rw [videoParse_isOk_eq] at hok ⊢
    rw [List.isEmpty_iff] at hok
    simp only [videoInputIssues, List.append_eq_nil] at hok
    obtain ⟨⟨⟨⟨h1, h2⟩, h3⟩, _⟩, h5⟩ := hok
    rw [List.isEmpty_iff]
    simp [videoInputIssues, h1, h2, h3, h5, hgood d hd]
  · rw [textParse_isOk_eq] at hok ⊢
    rw [List.isEmpty_iff] at hok
    simp only [textInputIssues, List.append_eq_nil] at hok
    obtain ⟨⟨⟨h1, _⟩, h3⟩, h4⟩ := hok
    rw [List.isEmpty_iff]
    simp [textInputIssues, h1, h3, h4, hgood d hd]

/-- Witness for `c6_duration_bounds_inclusive` at concrete inputs:
`duration = 0` on a text input is rejected, and setting `duration := 30`
on the valid fixture is accepted. -/
theorem c6_witness :
    (TextToAudioInputSchema.parse { rawT0 with duration := some 0 }).isOk = false
    ∧ (TextToAudioInputSchema.parse { rawT0 with duration := some 30 }).isOk = true :=
  ⟨(c6_duration_bounds_inclusive rawV0 { rawT0 with duration := some 0 } 30).2.1
      (Or.inl rfl),
   (c6_duration_bounds_inclusive rawV0 rawT0 30).2.2.2 (by decide) (Or.inr rfl)⟩

/-- C1: for both generation operations, an input that fails contract
validation yields the `McpError`-with-`InvalidParams` envelope (the
`ValidationError` flavour) and zero outbound HTTP requests, while an
input that passes validation yields exactly one outbound request. -/
theorem c1_validation_gates_network (cfg : Config) (rawV : VideoToAudioRawInput)
    (rawT : TextToAudioRawInput) (f g : FetchOutcome) :
    ((handleVideoToAudio cfg rawV f).2.length =
      if (VideoToAudioInputSchema.parse rawV).isOk then 1 else 0)
    ∧ (∀ issues, VideoToAudioInputSchema.parse rawV = .error issues →
        handleVideoToAudio cfg rawV f = (zodMcpError issues, []))
    ∧ ((handleTextToAudio cfg rawT g).2.length =
      if (TextToAudioInputSchema.parse rawT).isOk then 1 else 0)
    ∧ (∀ issues, TextToAudioInputSchema.parse rawT = .error issues →
        handleTextToAudio cfg rawT g = (zodMcpError issues, [])) := by
  refine ⟨?_, fun issues hi => ?_, ?_, fun issues hi => ?_⟩
  · unfold handleVideoToAudio
    cases hp : VideoToAudioInputSchema.parse rawV <;> simp [hp, Except.isOk, Except.toBool]
  · unfold handleVideoToAudio
    rw [hi]
  · unfold handleTextToAudio
    cases hp : TextToAudioInputSchema.parse rawT <;> simp [hp, Except.isOk, Except.toBool]
  · unfold handleTextToAudio
    rw [hi]

/-- Witness for `c1_validation_gates_network`: a `text_to_audio` call
without `prompt` produces the validation error and no request, and the
valid video fixture produces exactly one request. -/
theorem c1_witness :
    handleTextToAudio cfg0 {} (.transportError "connection refused") =
      (zodMcpError [("prompt", "Required")], [])
    ∧ (handleVideoToAudio cfg0 rawV0 (.transportError "connection refused")).2.length = 1 := by
  constructor
  · exact (c1_validation_gates_network cfg0 rawV0 {}
      (.transportError "connection refused") (.transportError "connection refused")).2.2.2
      [("prompt", "Required")] (by decide)
  · have h := (c1_validation_gates_network cfg0 rawV0 {}
      (.transportError "connection refused") (.transportError "connection refused")).1
    rw [h]
    decide

/-- Configuration resolution succeeds exactly when the collected issue
list is empty. -/
theorem configParse_isOk_eq (a : Option String) (b : String) (t : Option Int) :
    (ConfigSchema.parse a b t).isOk = (configIssues a b t).isEmpty := by
  unfold ConfigSchema.parse
  cases h : (configIssues a b t).isEmpty <;> simp [h, Except.isOk, Except.toBool]

/-- `loadConfig` unfolded to its `ConfigSchema` call. -/
theorem loadConfig_eq (env : Env) :
    loadConfig env = ConfigSchema.parse (jsOrStr env.MMAUDIO_API_KEY env.envApiKey)
      ((jsOrStr env.MMAUDIO_BASE_URL
        (jsOrStr env.envBaseUrl (some "https://mmaudio.net"))).getD "https://mmaudio.net")
      (parseIntJs ((jsOrStr env.MMAUDIO_TIMEOUT
        (jsOrStr env.envTimeout (some "60000"))).getD "60000")) := rfl

/-- An environment with a below-range timeout value. -/
def envLowTimeout : Env :=
  { MMAUDIO_API_KEY := some "sk-test", MMAUDIO_TIMEOUT := some "1000" }

/-- An environment with an above-range timeout value. -/
def envHighTimeout : Env :=
  { MMAUDIO_API_KEY := some "sk-test", MMAUDIO_TIMEOUT := some "400000" }

/-- C4 counterexample: with `MMAUDIO_TIMEOUT=1000` (below the range) or
`MMAUDIO_TIMEOUT=400000` (above it), configuration resolution fails; it
does not succeed with a clamped timeout as the claim states. -/
theorem c4_counterexample :
    (loadConfig envLowTimeout).isOk = false
    ∧ (loadConfig envHighTimeout).isOk = false := by
  constructor <;> decide

/-- C4 amended: every environment-supplied timeout that parses to a
value outside `[5000, 300000]` — and likewise a non-numeric timeout —
makes configuration resolution fail with a configuration error; the
value is never clamped into the range. -/
theorem c4_timeout_out_of_range_rejected (env : Env) :
    (∀ t : Int, parseIntJs ((jsOrStr env.MMAUDIO_TIMEOUT
        (jsOrStr env.envTimeout (some "60000"))).getD "60000") = some t →
      t < 5000 ∨ 300000 < t → (loadConfig env).isOk = false)
    ∧ (parseIntJs ((jsOrStr env.MMAUDIO_TIMEOUT
        (jsOrStr env.envTimeout (some "60000"))).getD "60000") = none →
      (loadConfig env).isOk = false) := by
  constructor
  · intro t ht hout
    rw [loadConfig_eq, ht, configParse_isOk_eq]
    cases hE : (configIssues _ _ (some t)).isEmpty
    · rfl
    · exfalso
      rw [List.isEmpty_iff] at hE
      simp only [configIssues, List.append_eq_nil] at hE
      rcases hout with h | h
      · simp [h] at hE
      · have h2 : t > 300000 := h
        simp [h2] at hE
  · intro ht
    rw [loadConfig_eq, ht, configParse_isOk_eq]
    cases hE : (configIssues _ _ none).isEmpty
    · rfl
    · exfalso
      rw [List.isEmpty_iff] at hE
      simp only [configIssues, List.append_eq_nil] at hE
      exact List.cons_ne_nil _ _ hE.2

/-- Witness for `c4_timeout_out_of_range_rejected` at the concrete
environment with `MMAUDIO_TIMEOUT=1000`. -/
theorem c4_witness :
    (loadConfig envLowTimeout).isOk = false :=
  (c4_timeout_out_of_range_rejected envLowTimeout).1 1000 (by decide) (Or.inl (by decide))

/-- C10: unrecognized caller-supplied fields are stripped by validation
— the whole handler result is unchanged by `extras` — and every key of
an outbound request body is one of the operation's declared contract
fields. -/
theorem c10_unrecognized_fields_stripped (cfg : Config) (rawV : VideoToAudioRawInput)
    (rawT : TextToAudioRawInput) (extrasV extrasT : List (String × Json))
    (f g : FetchOutcome) :
    handleVideoToAudio cfg { rawV with extras := extrasV } f = handleVideoToAudio cfg rawV f
    ∧ handleTextToAudio cfg { rawT with extras := extrasT } g = handleTextToAudio cfg rawT g
    ∧ (∀ r ∈ (handleVideoToAudio cfg rawV f).2, ∀ kv ∈ r.bodyFields,
        kv.1 = "video_url" ∨ kv.1 = "prompt" ∨ kv.1 = "negative_prompt" ∨ kv.1 = "seed"
        ∨ kv.1 = "num_steps" ∨ kv.1 = "duration" ∨ kv.1 = "cfg_strength")
    ∧ (∀ r ∈ (handleTextToAudio cfg rawT g).2, ∀ kv ∈ r.bodyFields,
        kv.1 = "prompt" ∨ kv.1 = "duration" ∨ kv.1 = "num_steps" ∨ kv.1 = "cfg_strength"
        ∨ kv.1 = "negative_prompt" ∨ kv.1 = "seed") := by
  refine ⟨rfl, rfl, fun r hr kv hkv => ?_, fun r hr kv hkv => ?_⟩
  · unfold handleVideoToAudio at hr
    cases hp : VideoToAudioInputSchema.parse rawV with
    | error issues => rw [hp] at hr; simp at hr
    | ok input =>
      rw [hp] at hr
      simp only [List.mem_singleton] at hr
      subst hr
      rcases hs : input.seed with _ | (_ | n) <;>
        simp only [VideoToAudioInput.bodyFields, hs, List.append_nil, List.mem_append,
          List.mem_cons, List.mem_singleton, List.not_mem_nil, or_false, false_or] at hkv <;>
        aesop
  · unfold handleTextToAudio at hr
    cases hp : TextToAudioInputSchema.parse rawT with
    | error issues => rw [hp] at hr; simp at hr
    | ok input =>
      rw [hp] at hr
      simp only [List.mem_singleton] at hr
      subst hr
      simp only [TextToAudioInput.bodyFields, List.mem_cons, List.not_mem_nil,
        or_false] at hkv
      aesop

/-- The single outbound request produced by the valid video fixture. -/
def reqV0 : GenRequest :=
  { url := "https://mmaudio.net/api/video-to-audio", bearer := "sk-test",
    bodyFields := [("video_url", .str "https://example.com/v.mp4"),
      ("prompt", .str "ocean waves"), ("negative_prompt", .str ""),
      ("num_steps", .num 25), ("duration", .num 8), ("cfg_strength", .num 4.5)] }

/-- Witness for `c10_unrecognized_fields_stripped`: an extra
`debug_flag` key leaves the video fixture's handler result unchanged,
and the first body field of its concrete request is a contract key. -/
theorem c10_witness :
    (handleVideoToAudio cfg0 { rawV0 with extras := [("debug_flag", Json.bool true)] }
        (.transportError "net down") =
      handleVideoToAudio cfg0 rawV0 (.transportError "net down"))
    ∧ (("video_url" : String) = "video_url" ∨ ("video_url" : String) = "prompt"
       ∨ ("video_url" : String) = "negative_prompt" ∨ ("video_url" : String) = "seed"
       ∨ ("video_url" : String) = "num_steps" ∨ ("video_url" : String) = "duration"
       ∨ ("video_url" : String) = "cfg_strength") :=
  ⟨(c10_unrecognized_fields_stripped cfg0 rawV0 rawT0 [("debug_flag", Json.bool true)] []
      (.transportError "net down") (.transportError "net down")).1,
   (c10_unrecognized_fields_stripped cfg0 rawV0 rawT0 [("debug_flag", Json.bool true)] []
      (.transportError "net down") (.transportError "net down")).2.2.1 reqV0
      (List.mem_cons_self reqV0 [])
      ("video_url", .str "https://example.com/v.mp4")
      (List.mem_cons_self _ _)⟩

/-- A 2xx upstream body whose descriptor is missing `file_size`. -/
def missingSizeBody : Json :=
  .obj [("video", .obj [("url", .str "https://cdn.example.com/out.mp4"),
    ("content_type", .str "video/mp4"), ("file_name", .str "out.mp4")])]

/-- C2 counterexample: a 2xx response missing `file_size` makes
`video_to_audio` throw the *same* invalid-parameters `McpError` shape
that caller-input validation failures produce (the `z.ZodError` catch
does not distinguish the two), so the error category is not distinct
from caller-input validation errors as the claim states. -/
theorem c2_counterexample :
    (handleVideoToAudio cfg0 rawV0 (.response 200 "" (some missingSizeBody))).1 =
      .mcpError .invalidParams "Invalid input parameters: video.file_size: Required"
    ∧ (handleVideoToAudio cfg0 { rawV0 with prompt := none } (.response 200 "" none)).1 =
      .mcpError .invalidParams "Invalid input parameters: prompt: Required" := by
  constructor <;> decide

/-- C2 amended: a 2xx body that fails the upstream response schema is
rejected — never silently defaulted — but via the same
invalid-parameters error category used for caller-input validation
failures, not a distinct `ContractViolationError`. -/
theorem c2_contract_violation_rejected (cfg : Config)
    (rawV : VideoToAudioRawInput) (rawT : TextToAudioRawInput)
    (inV : VideoToAudioInput) (inT : TextToAudioInput)
    (hV : VideoToAudioInputSchema.parse rawV = .ok inV)
    (hT : TextToAudioInputSchema.parse rawT = .ok inT)
    (status : Nat) (hst : statusOk status = true) (bodyText : String) (j : Json)
    (issuesV issuesT : List ZodIssue)
    (hjV : VideoToAudioResponseSchema.parse j = .error issuesV)
    (hjT : TextToAudioResponseSchema.parse j = .error issuesT) :
    (handleVideoToAudio cfg rawV (.response status bodyText (some j))).1 =
      .mcpError .invalidParams ("Invalid input parameters: " ++ formatZodIssues issuesV)
    ∧ (handleTextToAudio cfg rawT (.response status bodyText (some j))).1 =
      .mcpError .invalidParams ("Invalid input parameters: " ++ formatZodIssues issuesT) := by
  constructor
  · unfold handleVideoToAudio
    rw [hV]
    simp [interpretGenResponse, hst, hjV, zodMcpError]
  · unfold handleTextToAudio
    rw [hT]
    simp [interpretGenResponse, hst, hjT, zodMcpError]

/-- Witness for `c2_contract_violation_rejected`: the fixture inputs,
a 200 status and the body missing `file_size`. -/
theorem c2_witness :
    (handleVideoToAudio cfg0 rawV0 (.response 200 "body" (some missingSizeBody))).1 =
      .mcpError .invalidParams
        ("Invalid input parameters: " ++ formatZodIssues [("video.file_size", "Required")])
    ∧ (handleTextToAudio cfg0 rawT0 (.response 200 "body" (some missingSizeBody))).1 =
      .mcpError .invalidParams
        ("Invalid input parameters: " ++ formatZodIssues [("audio", "Required")]) :=
  c2_contract_violation_rejected cfg0 rawV0 rawT0
    { video_url := "https://example.com/v.mp4", prompt := "ocean waves",
      negative_prompt := "", seed := none, num_steps := 25, duration := 8,
      cfg_strength := 4.5 }
    { prompt := "rain on leaves", duration := 8, num_steps := 25,
      cfg_strength := 4.5, negative_prompt := "", seed := 0 }
    (by decide) (by decide) 200 (by decide) "body" missingSizeBody
    [("video.file_size", "Required")] [("audio", "Required")]
    (by decide) (by decide)

/-- C3 counterexample: on a 500 response with an empty (hence non-JSON)
body, the thrown message is `HTTP 500`, not the raw body text `""` that
the claim's message rule prescribes. -/
theorem c3_counterexample :
    (handleVideoToAudio cfg0 rawV0 (.response 500 "" none)).1 = .thrown "HTTP 500"
    ∧ (handleVideoToAudio cfg0 rawV0 (.response 500 "" none)).1 ≠ .thrown "" := by
  constructor <;> decide

/-- C3 amended: for a non-2xx response, 401/403/429 map to the fixed
invalid-key / insufficient-credits / rate-limited `McpError`s, and any
other status throws a generic error whose message is the JSON body's
truthy `error` field when there is one, the raw body text when the body
is not JSON and non-empty, and the fallback `HTTP <status>` otherwise
(JSON body without a truthy `error` field, or empty non-JSON body). -/
theorem c3_status_and_message_mapping (cfg : Config)
    (rawV : VideoToAudioRawInput) (rawT : TextToAudioRawInput)
    (inV : VideoToAudioInput) (inT : TextToAudioInput)
    (hV : VideoToAudioInputSchema.parse rawV = .ok inV)
    (hT : TextToAudioInputSchema.parse rawT = .ok inT)
    (status : Nat) (bodyText : String) (jsonBody : Option Json)
    (hno : statusOk status = false) :
    (status = 401 →
      (handleVideoToAudio cfg rawV (.response status bodyText jsonBody)).1 =
        .mcpError .invalidRequest "Invalid API key. Please check your MMAudio API key."
      ∧ (handleTextToAudio cfg rawT (.response status bodyText jsonBody)).1 =
        .mcpError .invalidRequest "Invalid API key. Please check your MMAudio API key.")
    ∧ (status = 403 →
      (handleVideoToAudio cfg rawV (.response status bodyText jsonBody)).1 =
        .mcpError .invalidRequest "Insufficient credits for video-to-audio generation."
      ∧ (handleTextToAudio cfg rawT (.response status bodyText jsonBody)).1 =
        .mcpError .invalidRequest "Insufficient credits for text-to-audio generation.")
    ∧ (status = 429 →
      (handleVideoToAudio cfg rawV (.response status bodyText jsonBody)).1 =
        .mcpError .invalidRequest "Rate limit exceeded. Please try again later."
      ∧ (handleTextToAudio cfg rawT (.response status bodyText jsonBody)).1 =
        .mcpError .invalidRequest "Rate limit exceeded. Please try again later.")
    ∧ (status ≠ 401 → status ≠ 403 → status ≠ 429 →
      (handleVideoToAudio cfg rawV (.response status bodyText jsonBody)).1 =
        .thrown (extractErrorMessage status bodyText jsonBody)
      ∧ (handleTextToAudio cfg rawT (.response status bodyText jsonBody)).1 =
        .thrown (extractErrorMessage status bodyText jsonBody))
    ∧ (∀ j e, jsonBody = some j → j.getField "error" = some e → e.truthy = true →
      extractErrorMessage status bodyText jsonBody = e.toDisplayString)
    ∧ (∀ j e, jsonBody = some j → j.getField "error" = some e → e.truthy = false →
      extractErrorMessage status bodyText jsonBody = "HTTP " ++ toString status)
    ∧ (∀ j, jsonBody = some j → j.getField "error" = none →
      extractErrorMessage status bodyText jsonBody = "HTTP " ++ toString status)
    ∧ (jsonBody = none → bodyText ≠ "" →
      extractErrorMessage status bodyText jsonBody = bodyText)
    ∧ (jsonBody = none → bodyText = "" →
      extractErrorMessage status bodyText jsonBody = "HTTP " ++ toString status) := by
  refine ⟨fun h => ?_, fun h => ?_, fun h => ?_, fun h1 h3 h9 => ?_,
    fun j e hj he ht => ?_, fun j e hj he ht => ?_, fun j hj he => ?_,
    fun hj hb => ?_, fun hj hb => ?_⟩
  · subst h
    constructor
    · unfold handleVideoToAudio; rw [hV]; simp [interpretGenResponse, hno]
    · unfold handleTextToAudio; rw [hT]; simp [interpretGenResponse, hno]
  · subst h
    constructor
    · unfold handleVideoToAudio; rw [hV]; simp [interpretGenResponse, hno]
    · unfold handleTextToAudio; rw [hT]; simp [interpretGenResponse, hno]
  · subst h
    constructor
    · unfold handleVideoToAudio; rw [hV]; simp [interpretGenResponse, hno]
    · unfold handleTextToAudio; rw [hT]; simp [interpretGenResponse, hno]
  · constructor
    · unfold handleVideoToAudio; rw [hV]; simp [interpretGenResponse, hno, h1, h3, h9]
    · unfold handleTextToAudio; rw [hT]; simp [interpretGenResponse, hno, h1, h3, h9]
  · subst hj; simp [extractErrorMessage, he, ht]
  · subst hj; simp [extractErrorMessage, he, ht]
  · subst hj; simp [extractErrorMessage, he]
  · subst hj; simp [extractErrorMessage, hb]
  · subst hj; simp [extractErrorMessage, hb]

/-- Witness for `c3_status_and_message_mapping`: a 418 response with a
non-JSON body throws the raw body text. -/
theorem c3_witness :
    (handleVideoToAudio cfg0 rawV0 (.response 418 "teapot" none)).1 =
      .thrown (extractErrorMessage 418 "teapot" none)
    ∧ extractErrorMessage 418 "teapot" none = "teapot" := by
  have h := c3_status_and_message_mapping cfg0 rawV0 rawT0
    { video_url := "https://example.com/v.mp4", prompt := "ocean waves",
      negative_prompt := "", seed := none, num_steps := 25, duration := 8,
      cfg_strength := 4.5 }
    { prompt := "rain on leaves", duration := 8, num_steps := 25,
      cfg_strength := 4.5, negative_prompt := "", seed := 0 }
    (by decide) (by decide) 418 "teapot" none (by decide)
  exact ⟨(h.2.2.2.1 (by decide) (by decide) (by decide)).1,
    h.2.2.2.2.2.2.2.1 rfl (by decide)⟩

/-- Every interpreted credits response is a returned envelope; only the
missing-key check before the `try` block can throw. -/
theorem interpretCredits_isEnvelope (f : FetchOutcome) :
    (interpretCreditsResponse f).isEnvelope = true := by
  cases f with
  | transportError m => rfl
  | response status bodyText jsonBody =>
    simp only [interpretCreditsResponse]
    split_ifs <;> first | rfl | (cases jsonBody <;> rfl)

/-- C7: with a resolvable key, a 401 upstream response yields the
returned envelope `valid := false` with the authentication-failed
message, and a transport failure yields the returned envelope
`valid := false` carrying the raw failure message; neither path throws a
dispatcher error. -/
theorem c7_invalid_key_and_transport_envelopes (config : Option Config)
    (api_key : Option String) (key : String)
    (hkey : truthyOptStr (jsOrStr api_key (config.map Config.apiKey)) = some key)
    (bodyText : String) (jsonBody : Option Json) (m : String) :
    (handleValidateApiKey config api_key (.response 401 bodyText jsonBody)).1 =
      .envelope { success := false, valid := false, message := "Invalid API key",
                  error := some "Authentication failed" }
    ∧ (handleValidateApiKey config api_key (.transportError m)).1 =
      .envelope { success := false, valid := false,
                  message := "Failed to validate API key", error := some m }
    ∧ (handleValidateApiKey config api_key (.response 401 bodyText jsonBody)).1.validFlag
      = some false
    ∧ (handleValidateApiKey config api_key (.transportError m)).1.validFlag
      = some false := by
  unfold handleValidateApiKey
  rw [hkey]
  exact ⟨rfl, rfl, rfl, rfl⟩

/-- Witness for `c7_invalid_key_and_transport_envelopes` with an
explicit override and no configuration. -/
theorem c7_witness :
    (handleValidateApiKey none (some "sk-live") (.response 401 "" none)).1 =
      .envelope { success := false, valid := false, message := "Invalid API key",
                  error := some "Authentication failed" }
    ∧ (handleValidateApiKey none (some "sk-live")
        (.transportError "getaddrinfo ENOTFOUND mmaudio.net")).1 =
      .envelope { success := false, valid := false,
                  message := "Failed to validate API key",
                  error := some "getaddrinfo ENOTFOUND mmaudio.net" } :=
  ⟨(c7_invalid_key_and_transport_envelopes none (some "sk-live") "sk-live" (by decide)
      "" none "getaddrinfo ENOTFOUND mmaudio.net").1,
   (c7_invalid_key_and_transport_envelopes none (some "sk-live") "sk-live" (by decide)
      "" none "getaddrinfo ENOTFOUND mmaudio.net").2.1⟩

/-- C8 counterexample: a supplied empty-string override is falsy under
JS `||`, so the configured key is used instead — the claim that a
supplied override is always used fails. -/
theorem c8_counterexample :
    (handleValidateApiKey (some cfg0) (some "") (.transportError "net down")).2 =
      [{ url := "https://mmaudio.net/api/credits", bearer := "sk-test" }]
    ∧ ("sk-test" : String) ≠ "" := by
  constructor <;> decide

/-- C8 amended: when neither the override nor the configuration yields a
truthy key (absent, or empty strings), the call throws the validation
`McpError` and issues no request; a non-empty override is the bearer of
every issued request; an absent or empty override falls back to the
configured key. -/
theorem c8_key_resolution (config : Option Config) (api_key : Option String)
    (f : FetchOutcome) :
    (truthyOptStr (jsOrStr api_key (config.map Config.apiKey)) = none →
      handleValidateApiKey config api_key f =
        (.thrownMcp .invalidRequest "No API key provided", []))
    ∧ (∀ k, api_key = some k → k ≠ "" →
        ∀ r ∈ (handleValidateApiKey config api_key f).2, r.bearer = k)
    ∧ (∀ c, config = some c → truthyOptStr api_key = none →
        ∀ r ∈ (handleValidateApiKey config api_key f).2, r.bearer = c.apiKey) := by
  refine ⟨fun h => ?_, fun k hk hk2 r hr => ?_, fun c hc ha r hr => ?_⟩
  · unfold handleValidateApiKey
    rw [h]
  · subst hk
    unfold handleValidateApiKey at hr
    rw [show jsOrStr (some k) (config.map Config.apiKey) = some k from by
        simp [jsOrStr, hk2]] at hr
    rw [show truthyOptStr (some k) = some k from by simp [truthyOptStr, hk2]] at hr
    simp only [List.mem_singleton] at hr
    subst hr
    rfl
  · subst hc
    have hbase : jsOrStr api_key (some c.apiKey) = some c.apiKey := by
      cases api_key with
      | none => rfl
      | some s =>
        cases hs : truthyOptStr (some s) with
        | none =>
          simp only [truthyOptStr] at hs
          by_cases h0 : s = ""
          · simp [jsOrStr, h0]
          · simp [h0] at hs
        | some t => simp [hs] at ha
    unfold handleValidateApiKey at hr
    rw [show (some c : Option Config).map Config.apiKey = some c.apiKey from rfl,
      hbase] at hr
    cases hck : truthyOptStr (some c.apiKey) with
    | none => rw [hck] at hr; simp at hr
    | some t =>
      have htc : t = c.apiKey := by
        simp only [truthyOptStr] at hck
        by_cases h0 : c.apiKey = ""
        · simp [h0] at hck
        · simp [h0] at hck; exact hck.symm
      rw [hck] at hr
      simp only [List.mem_singleton] at hr
      subst hr
      exact htc

/-- Witness for `c8_key_resolution`: no override and no configuration
throws with no request; a non-empty override is the bearer used. -/
theorem c8_witness :
    handleValidateApiKey none none (.transportError "net down") =
      (.thrownMcp .invalidRequest "No API key provided", [])
    ∧ ({ url := "https://mmaudio.net/api/credits", bearer := "sk-live" } :
        CreditsRequest).bearer = "sk-live" :=
  ⟨(c8_key_resolution none none (.transportError "net down")).1 (by decide),
   (c8_key_resolution none (some "sk-live") (.transportError "net down")).2.1
     "sk-live" rfl (by decide) _ (List.mem_cons_self _ _)⟩

/-- C9 counterexample: an explicitly supplied but empty `api_key`
argument with no configuration does not proceed — the call throws the
no-API-key `McpError` before any request, instead of falling back to the
default base URL. -/
theorem c9_counterexample :
    handleValidateApiKey none (some "") (.transportError "net down") =
      (.thrownMcp .invalidRequest "No API key provided", ([] : List CreditsRequest)) := rfl

/-- C9 amended: with a non-empty `api_key` argument the operation never
consults `loadConfig` and always returns an envelope (never a thrown
configuration error) whatever the configuration state, and with no
configuration present the single request goes to
`https://mmaudio.net/api/credits` bearing the supplied key. -/
theorem c9_explicit_key_needs_no_config (k : String) (hk : k ≠ "")
    (config : Option Config) (f : FetchOutcome) :
    (handleValidateApiKey config (some k) f).1.isEnvelope = true
    ∧ (handleValidateApiKey none (some k) f).2 =
        [{ url := "https://mmaudio.net/api/credits", bearer := k }] := by
  have hks : truthyOptStr (jsOrStr (some k) (config.map Config.apiKey)) = some k := by
    simp [jsOrStr, truthyOptStr, hk]
  have hks2 : truthyOptStr (jsOrStr (some k)
      ((none : Option Config).map Config.apiKey)) = some k := by
    simp [jsOrStr, truthyOptStr, hk]
  constructor
  · unfold handleValidateApiKey
    rw [hks]
    exact interpretCredits_isEnvelope f
  · unfold handleValidateApiKey
    rw [hks2]
    rfl

/-- Witness for `c9_explicit_key_needs_no_config` with a concrete
non-empty override against a transport failure. -/
theorem c9_witness :
    (handleValidateApiKey (some cfg0) (some "sk-live")
        (.transportError "net down")).1.isEnvelope = true
    ∧ (handleValidateApiKey none (some "sk-live") (.transportError "net down")).2 =
        [{ url := "https://mmaudio.net/api/credits", bearer := "sk-live" }] :=
  ⟨(c9_explicit_key_needs_no_config "sk-live" (by decide) (some cfg0)
      (.transportError "net down")).1,
   (c9_explicit_key_needs_no_config "sk-live" (by decide) (some cfg0)
      (.transportError "net down")).2⟩
